import Mathlib

/-!
Verification of the vstrike-bot payment core against its specification.

Shallow embedding of the Python sources:
  * `validator.py`   — input validation and sanitization,
  * `database.py`    — users/transactions store and status transitions,
  * `payments.py`    — payment-gateway client, retry helper, link generation,
  * `webhook_validator.py` — webhook signature verification,
  * `bridge.py`      — webhook-to-bot notification queue.

Machine text is modeled as `List Char` where character-level cleaning
matters and as `String` at API boundaries; timestamps are abstract `Nat`
instants; SQLite rows are Lean structures and each SQL statement becomes an
explicit state-to-state function.  Python `float` amounts are idealized as
exact rationals (`ℚ`); every point where that idealization (or any other)
is load-bearing is called out in the corresponding doc comment.
-/

namespace VStrike

/-- Abstract timestamp (`datetime.now().isoformat()` instants are only ever
generated, stored and compared for identity, so an abstract instant
suffices). -/
abbrev Time := Nat

/-! ## Character-level helpers shared by the validator model -/

/-- The characters removed by `InputValidator.sanitize_string`
(`re.sub(r'[<>"\';]', '', ...)`): `<` `>` `"` `'` `;`, given here by
character code. -/
def isDangerous (c : Char) : Bool :=
  c.toNat = 60 || c.toNat = 62 || c.toNat = 34 || c.toNat = 39 || c.toNat = 59

/-- Whitespace stripped by Python's `str.strip()`:
space, `\t`, `\n`, `\r`, `\x0b`, `\x0c`. -/
def isPyWs (c : Char) : Bool :=
  c.toNat = 32 || c.toNat = 9 || c.toNat = 10 || c.toNat = 13 ||
  c.toNat = 11 || c.toNat = 12

/-- Leading-whitespace removal (`str.lstrip()` half of `strip()`). -/
def dropLeadWs (l : List Char) : List Char := l.dropWhile isPyWs

/-- Trailing-whitespace removal (`str.rstrip()` half of `strip()`). -/
def dropTrailWs (l : List Char) : List Char :=
  (l.reverse.dropWhile isPyWs).reverse

/-- Python `str.strip()`. -/
def pyStrip (l : List Char) : List Char := dropTrailWs (dropLeadWs l)

/-- `str.strip()` at the `String` boundary. -/
def pyStripS (s : String) : List Char := pyStrip s.toList

/-! ## validator.py — `sanitize_string` and `sanitize_transaction_metadata` -/

/-- `InputValidator.sanitize_string(text, max_length)`: strip, drop the
dangerous characters, then truncate to `max_length`. -/
def sanitize_string (text : List Char) (maxLength : Nat) : List Char :=
  ((pyStrip text).filter (fun c => !isDangerous c)).take maxLength

/-- Metadata handed to `TransactionValidator.sanitize_transaction_metadata`:
either a plain string or a key/value map.  The map case carries string
values only — the sanitizer passes non-string values through to
`json.dumps` untouched, and no claim needs them. -/
inductive Metadata where
  | str (s : List Char)
  | dict (entries : List (List Char × List Char))
  deriving Repr, DecidableEq

/-- One hexadecimal digit, lowercase (for `\u00XX` escapes). -/
def hexDigitLower (n : Nat) : Char :=
  if n < 10 then Char.ofNat (48 + n) else Char.ofNat (87 + n)

/-- JSON string escaping as performed by `json.dumps` on the characters the
sanitizer can emit: `"` and `\` get a backslash escape, control characters
become `\u00XX`. -/
def jsonEscapeChar (c : Char) : List Char :=
  if c.toNat = 34 then [Char.ofNat 92, Char.ofNat 34]
  else if c.toNat = 92 then [Char.ofNat 92, Char.ofNat 92]
  else if c.toNat < 32 then
    [Char.ofNat 92, 'u', '0', '0',
     hexDigitLower (c.toNat / 16), hexDigitLower (c.toNat % 16)]
  else [c]

/-- A JSON string literal: quote, escape, quote. -/
def jsonQuote (s : List Char) : List Char :=
  Char.ofNat 34 :: (s.map jsonEscapeChar).flatten ++ [Char.ofNat 34]

/-- `json.dumps` of a string-valued dict with the default separators
`(", ", ": ")`, preserving insertion order as Python dicts do. -/
def jsonDumps (entries : List (List Char × List Char)) : List Char :=
  Char.ofNat 123 ::
    (List.intercalate (',' :: [' '])
      (entries.map (fun kv => jsonQuote kv.1 ++ ':' :: ' ' :: jsonQuote kv.2)))
    ++ [Char.ofNat 125]

/-- `TransactionValidator.sanitize_transaction_metadata`: a dict gets its
string values sanitized (bound 500) and is serialized with `json.dumps`;
a string is sanitized with bound 1000. -/
def sanitize_transaction_metadata : Metadata → List Char
  | .dict es => jsonDumps (es.map (fun kv => (kv.1, sanitize_string kv.2 500)))
  | .str s => sanitize_string s 1000

/-! ## bridge.py — the notification queue -/

/-- The record `send_payment_notification` enqueues. -/
structure NotificationItem where
  typeTag : String
  order_id : String
  user_id : Int
  message : String
  admin_id : Option Int
  deriving Repr, DecidableEq

/-- State of a `queue.Queue`: `maxsize` as passed to the constructor
(`0` meaning unbounded, the Python default) plus the queued items. -/
structure SyncQueue where
  maxsize : Nat
  items : List NotificationItem
  deriving Repr, DecidableEq

/-- `_sync_queue = queue.Queue()` — constructed with the default
`maxsize=0`, i.e. unbounded. -/
def syncQueueInit : SyncQueue := ⟨0, []⟩

/-- Outcome of `queue.Queue.put(item)` with the default `block=True`:
the item is appended, or the producer blocks when a bounded queue is at
capacity.  A blocking put never raises and never returns control. -/
inductive PutOutcome where
  | ok (q : SyncQueue)
  | blocked
  deriving Repr, DecidableEq

/-- `queue.Queue.put` (blocking flavor, as called by the bridge). -/
def queuePut (q : SyncQueue) (x : NotificationItem) : PutOutcome :=
  if 0 < q.maxsize ∧ q.maxsize ≤ q.items.length then .blocked
  else .ok ⟨q.maxsize, q.items ++ [x]⟩

/-- `send_payment_notification(order_id, user_id, message, admin_id)` from
`bridge.py`: builds the intent record and `put`s it on `_sync_queue`,
returning `True`.  The `blocked` branch is unreachable for the actual
unbounded queue and is mapped to the function's `except`-branch `False`
for totality. -/
def send_payment_notification (q : SyncQueue) (order_id : String)
    (user_id : Int) (message : String) (admin_id : Option Int) :
    Bool × SyncQueue :=
  match queuePut q ⟨"payment_notification", order_id, user_id, message, admin_id⟩ with
  | .ok q' => (true, q')
  | .blocked => (false, q)

/-! ## payments.py — `PaymentGateway._make_request` -/

/-- What one `self.session.request(...)` call can do, as observed by the
retry loop: raise `Timeout`, raise `ConnectionError`, raise some other
`RequestException`, raise an unexpected exception, or deliver a response
with an HTTP status and a body that does or does not parse as JSON
(the parsed body is abstracted to a `Nat` tag). -/
inductive HttpOutcome where
  | timeout
  | connError
  | reqError
  | otherError
  | response (status : Nat) (jsonOk : Bool) (body : Nat)
  deriving Repr, DecidableEq

/-- Observable trace of one `_make_request` call: the returned value,
how many HTTP requests were issued, and the `time.sleep` durations
performed, in order. -/
structure RequestTrace where
  result : Option Nat
  requests : Nat
  sleeps : List Nat
  deriving Repr, DecidableEq

/-- The body of `_make_request`'s `for attempt in range(max_retries + 1)`
loop.  `response.raise_for_status()` raises `HTTPError` (a
`RequestException`) for statuses `≥ 400`; that exception — exactly like
`Timeout`, `ConnectionError` and the other handlers — falls into a branch
that returns `None` on the last attempt and otherwise lets the loop retry
after sleeping `2 ** attempt` seconds.  A response below 400 returns
immediately: the parsed JSON on success, `None` on a JSON decode error.
`fuel` is `max_retries + 1 - attempt` and only forces termination. -/
def makeRequestGo (oracle : Nat → HttpOutcome) (maxRetries : Nat) :
    Nat → Nat → RequestTrace
  | _, 0 => ⟨none, 0, []⟩
  | attempt, fuel + 1 =>
    let sl : List Nat := if 0 < attempt then [2 ^ attempt] else []
    let failStep : Unit → RequestTrace := fun _ =>
      if attempt = maxRetries then ⟨none, 1, sl⟩
      else
        let t := makeRequestGo oracle maxRetries (attempt + 1) fuel
        ⟨t.result, t.requests + 1, sl ++ t.sleeps⟩
    match oracle attempt with
    | .response s jOk body =>
      if 400 ≤ s then failStep ()
      else if jOk then ⟨some body, 1, sl⟩ else ⟨none, 1, sl⟩
    | _ => failStep ()

/-- `PaymentGateway._make_request`, abstracted over the network behavior
`oracle` (outcome of the attempt-th request).  Gateways construct the base
class with `max_retries=3`. -/
def makeRequestTrace (maxRetries : Nat) (oracle : Nat → HttpOutcome) :
    RequestTrace :=
  makeRequestGo oracle maxRetries 0 (maxRetries + 1)

/-! ## validator.py — amounts, order ids, user ids, methods -/

/-- An amount as `validate_amount` receives it: a number (Python `int` /
`float`, idealized as an exact rational) or a string. -/
inductive AmountInput where
  | num (q : ℚ)
  | str (s : String)
  deriving Repr, DecidableEq

/-- The cleaning step of `validate_amount` on strings:
`re.sub(r'[^\d.]', '', amount.strip())` — keep only ASCII digits and dots.
(Python's `\d` also matches non-ASCII decimal digits; the model is
ASCII-only, which covers every input the claims exercise.) -/
def cleanAmountChars (s : String) : List Char :=
  (pyStripS s).filter (fun c => c.isDigit || c.toNat = 46)

/-- Value of a digit string read left to right. -/
def digitsVal (l : List Char) : Nat :=
  l.foldl (fun a c => a * 10 + (c.toNat - 48)) 0

/-- `float(cleaned)` for a nonempty digits-and-at-most-one-dot string:
`"."` alone raises `ValueError` (mapped to `none`); otherwise integer part
plus fractional part.  The binary-float rounding of the conversion is
idealized away: the string's exact decimal value is returned. -/
def floatOfCleaned (l : List Char) : Option ℚ :=
  let ip := l.takeWhile (fun c => c.toNat ≠ 46)
  let rest := l.dropWhile (fun c => c.toNat ≠ 46)
  let fp := rest.drop 1
  if ip = [] ∧ fp = [] ∧ rest ≠ [] then none
  else some ((digitsVal ip : ℚ) + (digitsVal fp : ℚ) / (10 : ℚ) ^ fp.length)

/-- Round half to even, the rounding mode of Python's `round`. -/
def roundHalfEven (x : ℚ) : ℤ :=
  let f := ⌊x⌋
  let r := x - f
  if r < 1 / 2 then f
  else if 1 / 2 < r then f + 1
  else if f % 2 = 0 then f else f + 1

/-- Python `round(x, 2)`, idealized to exact rationals (the real call
rounds the nearest binary double; on the exact decimal values the
validator manipulates the two agree up to that representation error). -/
def pyRound2 (x : ℚ) : ℚ := (roundHalfEven (100 * x) : ℚ) / 100

/-- `InputValidator.validate_amount`: `none` when rejected, `some v` with
the sanitized (rounded) value when accepted.  Strings are first stripped
of every character that is not a digit or a dot, then must be nonempty
with at most one dot and convertible by `float`; the common tail rejects
values `≤ 0` or `> 10000` and rounds survivors to 2 decimal digits. -/
def validate_amount : AmountInput → Option ℚ
  | .num q =>
    if q ≤ 0 then none
    else if 10000 < q then none
    else some (pyRound2 q)
  | .str s =>
    let cleaned := cleanAmountChars s
    if cleaned = [] then none
    else if 1 < (cleaned.filter (fun c => c.toNat = 46)).length then none
    else
      match floatOfCleaned cleaned with
      | none => none
      | some q =>
        if q ≤ 0 then none
        else if 10000 < q then none
        else some (pyRound2 q)

/-- Characters kept by `re.sub(r'[^\w\-]', '', ...)` in
`validate_order_id`: word characters (ASCII idealization of `\w`:
letters, digits, `_`) and `-`. -/
def isOrderChar (c : Char) : Bool := c.isAlphanum || c = '_' || c = '-'

/-- `InputValidator.validate_order_id`: empty input fails the falsy guard;
otherwise strip, drop non-word/non-hyphen characters, require 3–64
characters (the subsequent `ORDER_ID_PATTERN` match cannot fail on the
cleaned string, so it imposes nothing further). -/
def validate_order_id (s : String) : Option String :=
  if s = "" then none
  else
    let cleaned := (pyStripS s).filter isOrderChar
    if cleaned.length < 3 ∨ 64 < cleaned.length then none
    else if !(cleaned.all isOrderChar) then none
    else some (String.mk cleaned)

/-- `InputValidator.validate_telegram_id` on the integer ids
`create_transaction` passes: positive and at most `9999999999`. -/
def validate_telegram_id (n : Int) : Option Int :=
  if n ≤ 0 then none
  else if 9999999999 < n then none
  else some n

/-- ASCII lowercasing, Python `str.lower()` on the method names used
here. -/
def lowerStr (s : String) : String := String.mk (s.toList.map Char.toLower)

/-- `valid_methods` inside `validate_payment_method` — note it contains
`"Stars"` and not `"Transak"`. -/
def validMethods : List String := ["OxaPay", "Cryptomus", "NOWPayments", "Stars"]

/-- `InputValidator.validate_payment_method`: falsy guard, strip, then a
case-insensitive match against `validMethods`; the canonical spelling is
returned as the sanitized value. -/
def validate_payment_method (m : String) : Option String :=
  if m = "" then none
  else
    let cleaned := String.mk (pyStripS m)
    validMethods.find? (fun v => lowerStr v = lowerStr cleaned)

/-- The record `validate_transaction_input` returns on success. -/
structure ValidatedTx where
  tx_id : String
  user_id : Int
  amount : ℚ
  method : String
  metadata : List Char
  deriving Repr, DecidableEq

/-- `validate_transaction_input(tx_id, user_id, amount, method, metadata)`
from `validator.py`: each field is validated in order and any failure
yields `None`; metadata is sanitized last. -/
def validate_transaction_input (tx_id : String) (user_id : Int)
    (amount : AmountInput) (method : String) (metadata : Metadata) :
    Option ValidatedTx :=
  if tx_id = "" then none
  else
    match validate_order_id tx_id with
    | none => none
    | some tid =>
      match validate_telegram_id user_id with
      | none => none
      | some uid =>
        match validate_amount amount with
        | none => none
        | some amt =>
          if method = "" then none
          else
            match validate_payment_method method with
            | none => none
            | some m =>
              some ⟨tid, uid, amt, m, sanitize_transaction_metadata metadata⟩

/-- A nonempty string of digits with at most one dot, not a lone dot. -/
def isDecimalDigits (l : List Char) : Bool :=
  !l.isEmpty && l.all (fun c => c.isDigit || c.toNat = 46) &&
    (l.filter (fun c => c.toNat = 46)).length ≤ 1 &&
    l ≠ [Char.ofNat 46]

/-- The value an amount string denotes, following the spec's words
(`amount` — positive decimal): an optional leading minus sign, then
digits with at most one dot.  This is the claim-side reading used to
compare against what `validate_amount` actually accepts. -/
def decimalValue (s : String) : Option ℚ :=
  match s.toList with
  | '-' :: rest =>
    if isDecimalDigits rest then (floatOfCleaned rest).map (fun q => -q)
    else none
  | l => if isDecimalDigits l then floatOfCleaned l else none

/-! ## database.py — rows, schema and operations -/

/-- A row of the `users` table created by `init_db`. -/
structure UserRow where
  telegram_id : Int
  join_date : Time
  last_interaction : Time
  is_vip : Bool
  updated_at : Time
  deriving Repr, DecidableEq

/-- A row of the `transactions` table created by `init_db`.  The table has
no `updated_at` column — see `transactionsColumns`. -/
structure TxRow where
  tx_id : String
  user_id : Int
  amount : ℚ
  method : String
  metadata : String
  status : String
  timestamp : Time
  processed_at : Option Time
  deriving Repr, DecidableEq

/-- The persistent store: the two tables owned by `database.py`. -/
structure DB where
  users : List UserRow
  transactions : List TxRow
  deriving Repr, DecidableEq

/-- Column names of `transactions` as declared in `init_db`'s
`CREATE TABLE` statement. -/
def transactionsColumns : List String :=
  ["tx_id", "user_id", "amount", "method", "metadata", "status",
   "timestamp", "processed_at", "created_at"]

/-- Column names the `UPDATE transactions SET ...` statement inside
`update_transaction_status` assigns to. -/
def updateStatusSetColumns : List String :=
  ["status", "processed_at", "updated_at"]

/-- Effect of `UPDATE transactions SET status = ?, processed_at = ?
WHERE tx_id = ?` on the row data (the part of the statement whose columns
exist). -/
def setTxStatus (db : DB) (txid status : String) (now : Time) : DB :=
  { db with
    transactions := db.transactions.map (fun t =>
      if t.tx_id = txid then { t with status := status, processed_at := some now }
      else t) }

/-- `cursor.rowcount` of the transaction update: number of rows matching
`tx_id = ?`. -/
def txRowCount (db : DB) (txid : String) : Nat :=
  (db.transactions.filter (fun t => t.tx_id = txid)).length

/-- `SELECT user_id FROM transactions WHERE tx_id = ?`, first row. -/
def lookupTxUser (db : DB) (txid : String) : Option Int :=
  ((db.transactions.filter (fun t => t.tx_id = txid)).head?).map
    (fun t => t.user_id)

/-- `UPDATE users SET is_vip = 1, updated_at = ? WHERE telegram_id = ?`. -/
def setUserVip (db : DB) (uid : Int) (now : Time) : DB :=
  { db with
    users := db.users.map (fun u =>
      if u.telegram_id = uid then { u with is_vip := true, updated_at := now }
      else u) }

/-- The statement-level effect `update_transaction_status` was evidently
written for — i.e. the function's body with the `UPDATE`'s column list
taken to match the schema.  Each `execute_update`/`execute_query` call is
one separately committed statement; `failAt = some i` injects an error
(storage failure, interruption) immediately before the `i`-th statement
(`0` = the transaction `UPDATE`, `1` = the user `SELECT`, `2` = the user
`UPDATE`), after which the outer `except` returns `False`, leaving the
effects of the statements already committed in place. -/
def updateTransactionStatusSteps (db : DB) (txid status : String)
    (now : Time) (failAt : Option Nat) : Bool × DB :=
  if failAt = some 0 then (false, db)
  else if txRowCount db txid = 0 then (false, db)
  else
    let db1 := setTxStatus db txid status now
    if status = "completed" then
      if failAt = some 1 then (false, db1)
      else
        match lookupTxUser db1 txid with
        | some uid =>
          if failAt = some 2 then (false, db1)
          else (true, setUserVip db1 uid now)
        | none => (true, db1)
    else (true, db1)

/-- `update_transaction_status(tx_id, status)` from `database.py`, as it
actually executes against the schema `init_db` creates: the `UPDATE`
statement assigns to `updated_at`, a column the `transactions` table does
not have, so SQLite raises `OperationalError("no such column")` at the
first statement, `execute_update` re-raises, and the function's `except`
logs and returns `False` — nothing is ever written, for any transaction
and any requested status.  The column-list check below is that schema
lookup made explicit; were it to pass, the body would proceed as
`updateTransactionStatusSteps` with no injected failure. -/
def update_transaction_status (db : DB) (txid status : String)
    (now : Time) : Bool × DB :=
  if ¬ (updateStatusSetColumns.all (fun c => transactionsColumns.contains c)) then
    (false, db)
  else updateTransactionStatusSteps db txid status now none

/-- `create_transaction(tx_id, user_id, amount, method, metadata)`:
validation failure writes nothing; a duplicate primary key makes the
`INSERT` raise (caught, `False`); otherwise a `pending` row is inserted
with the sanitized field values. -/
def create_transaction (db : DB) (tx_id : String) (user_id : Int)
    (amount : AmountInput) (method : String) (metadata : Metadata)
    (now : Time) : Bool × DB :=
  match validate_transaction_input tx_id user_id amount method metadata with
  | none => (false, db)
  | some v =>
    if db.transactions.any (fun t => t.tx_id = v.tx_id) then (false, db)
    else
      (true,
       { db with
         transactions := db.transactions ++
           [⟨v.tx_id, v.user_id, v.amount, v.method, String.mk v.metadata,
             "pending", now, none⟩] })

/-! ## payments.py — Transak link synthesis and `generate_payment_link` -/

/-- Uppercase hexadecimal digit, as `urllib.parse.quote` emits. -/
def hexDigitUpper (n : Nat) : Char :=
  if n < 10 then Char.ofNat (48 + n) else Char.ofNat (55 + n)

/-- UTF-8 encoding of one code point, byte values. -/
def utf8Bytes (c : Char) : List Nat :=
  let n := c.toNat
  if n < 128 then [n]
  else if n < 2048 then [192 + n / 64, 128 + n % 64]
  else if n < 65536 then [224 + n / 4096, 128 + n / 64 % 64, 128 + n % 64]
  else [240 + n / 262144, 128 + n / 4096 % 64, 128 + n / 64 % 64, 128 + n % 64]

/-- `urllib.parse.quote_plus` on one character with `safe=''` (what
`urlencode` uses): ASCII letters, digits and `_ . - ~` pass through,
space becomes `+`, everything else is percent-encoded byte by byte. -/
def quotePlusChar (c : Char) : List Char :=
  if c.isAlphanum ∧ c.toNat < 128 then [c]
  else if c = '_' ∨ c.toNat = 46 ∨ c = '-' ∨ c.toNat = 126 then [c]
  else if c = ' ' then ['+']
  else
    ((utf8Bytes c).map (fun b =>
      ['%', hexDigitUpper (b / 16), hexDigitUpper (b % 16)])).flatten

/-- `urllib.parse.quote_plus` on a string. -/
def quotePlus (s : String) : String :=
  String.mk (s.toList.map quotePlusChar).flatten

/-- Python `str.join` / `'&'.join` semantics. -/
def joinSep (sep : String) : List String → String
  | [] => ""
  | [x] => x
  | x :: y :: xs => x ++ sep ++ joinSep sep (y :: xs)

/-- `urllib.parse.urlencode(params)`: `quote_plus` each key and value and
join the `k=v` pairs with `&`. -/
def urlencode (params : List (String × String)) : String :=
  joinSep "&" (params.map (fun p => quotePlus p.1 ++ "=" ++ quotePlus p.2))

/-- The module-level configuration `payments.py` reads from the
environment, plus whether the optional `stripe` library imported. -/
structure PayConfig where
  oxapayKey : Option String
  cryptomusKey : Option String
  cryptomusMerchant : Option String
  nowpaymentsKey : Option String
  stripeKey : Option String
  usdtWallet : Option String
  returnUrlBase : String
  stripeLib : Bool
  deriving Repr, DecidableEq

/-- The hard-coded default of `Transak.__init__`'s `api_key` parameter. -/
def transakApiKeyDefault : String := "4fcd6904-706b-4e0e-9764-159cc4142646"

/-- The `params` dict built inside `Transak.create_payment_link`, in
insertion order (which Python dicts and `urlencode` preserve).
`amountStr` stands for `str(amount)`. -/
def transakParams (cfg : PayConfig) (wallet : String) (amountStr : String)
    (currency : String) : List (String × String) :=
  [("apiKey", transakApiKeyDefault),
   ("defaultCryptoCurrency", "USDT"),
   ("defaultNetwork", "tron"),
   ("defaultFiatAmount", amountStr),
   ("defaultFiatCurrency", currency),
   ("walletAddress", wallet),
   ("redirectURL", cfg.returnUrlBase),
   ("disableWalletAddressForm", "true"),
   ("hideMenu", "true"),
   ("exchangeScreenTitle", "Pagar VIP V-Strike"),
   ("cryptoCurrencyList", "USDT"),
   ("networks", "tron")]

/-- Python `str()` of the float amount.  Modeled exactly for integral
values — the only shape any claim inspects; non-integral rationals get a
placeholder `num/den` rendering (the float-repr algorithm is out of
scope and no theorem depends on it). -/
def pyFloatStr (q : ℚ) : String :=
  if q.den = 1 then toString q.num ++ ".0"
  else toString q.num ++ "/" ++ toString q.den

/-- `Transak.create_payment_link`'s `pay_url`: the widget base URL with
the urlencoded parameter string.  Purely local — the function performs no
HTTP request. -/
def transakPayUrl (cfg : PayConfig) (wallet : String) (amount : ℚ) : String :=
  "https://global.transak.com?" ++
    urlencode (transakParams cfg wallet (pyFloatStr amount) "USD")

/-- What a successful provider `create_payment` network exchange yields,
abstracted to the reference and URL the caller propagates. -/
structure PayResp where
  ref : String
  url : String
  deriving Repr, DecidableEq

/-- Result of `generate_payment_link`: the Transak local-link dict, a
mock dict (provider not configured), or a gateway-backed response. -/
inductive GplResult where
  | transak (pay_url : String) (order_id : String) (amount : ℚ) (currency : String)
  | mock (ref : String) (url : String)
  | gateway (resp : PayResp)
  deriving Repr, DecidableEq

/-- The case-sensitive membership list in `generate_payment_link`
(`if method not in ["OxaPay", "Cryptomus", "NOWPayments", "Stripe"]`). -/
def gplMethods : List String := ["OxaPay", "Cryptomus", "NOWPayments", "Stripe"]

/-- `generate_payment_link(method, amount, order_id, user_id)` from
`payments.py`.  `net` abstracts a configured provider's whole
`create_payment` exchange (request construction, `_make_request` with its
retries — modeled in detail by `makeRequestTrace` — and response
parsing); the second component of the result counts how many times the
network is touched, `0` meaning no network call at all.  Falsy-guard
semantics: empty `method`/`order_id`, `amount == 0` and `user_id == 0`
are rejected up front; `method == "Transak"` is compared
case-sensitively, returns `None` when the wallet is unset and otherwise
synthesizes the link locally; any `method` outside `gplMethods` is
rejected; a configured provider consults the network once, an
unconfigured one returns its mock dict (Stripe additionally needs the
library). -/
def generate_payment_link (cfg : PayConfig) (net : String → Option PayResp)
    (method : String) (amount : ℚ) (order_id : String) (user_id : Int)
    (now : Time) : Option GplResult × Nat :=
  if method = "" ∨ amount = 0 ∨ order_id = "" ∨ user_id = 0 then (none, 0)
  else if amount ≤ 0 then (none, 0)
  else if method = "Transak" then
    match cfg.usdtWallet with
    | none => (none, 0)
    | some w =>
      (some (.transak (transakPayUrl cfg w amount)
        ("transak_" ++ toString now) amount "USD"), 0)
  else if ¬ gplMethods.contains method then (none, 0)
  else if method = "OxaPay" then
    match cfg.oxapayKey with
    | none =>
      (some (.mock order_id ("https://oxapay.com/pay/" ++ order_id ++ " (MOCK)")), 0)
    | some _ => ((net "OxaPay").map .gateway, 1)
  else if method = "Cryptomus" then
    match cfg.cryptomusKey with
    | none =>
      (some (.mock order_id ("https://cryptomus.com/pay/" ++ order_id ++ " (MOCK)")), 0)
    | some _ =>
      match cfg.cryptomusMerchant with
      | none => (none, 0)
      | some _ => ((net "Cryptomus").map .gateway, 1)
  else if method = "NOWPayments" then
    match cfg.nowpaymentsKey with
    | none =>
      (some (.mock order_id ("https://nowpayments.io/payment/" ++ order_id ++ " (MOCK)")), 0)
    | some _ => ((net "NOWPayments").map .gateway, 1)
  else if method = "Stripe" then
    match cfg.stripeKey with
    | none => (some (.mock "mock_sess" "https://stripe.com/docs/testing (MOCK)"), 0)
    | some _ =>
      if ¬ cfg.stripeLib then (none, 0)
      else ((net "Stripe").map .gateway, 1)
  else (none, 0)

/-! ## webhook_validator.py — `verify_oxapay` -/

/-- `hmac.compare_digest` on equal-typed strings: `False` on a length
mismatch, otherwise an accumulated comparison that inspects every
character pair with no early exit (the constant-time discipline, rendered
structurally — wall-clock timing itself is outside the embedding). -/
def constantTimeEq (a b : String) : Bool :=
  (a.length == b.length) &&
    (a.toList.zip b.toList).foldl (fun acc p => acc && (p.1 == p.2)) true

/-- `WebhookValidator.verify_oxapay(payload, signature, api_key)`.
`hmacSha256Hex` abstracts `hmac.new(api_key, payload, sha256).hexdigest()`
— an uninterpreted keyed function, since the claims concern the guard and
comparison structure, not the compression function.  Falsy signature
(`None` or empty) or empty key short-circuit to `False`; otherwise the
received signature is compared against the expected digest with
`compare_digest`. -/
def verify_oxapay (hmacSha256Hex : String → String → String)
    (payload : String) (signature : Option String) (api_key : String) : Bool :=
  match signature with
  | none => false
  | some sig =>
    if sig = "" ∨ api_key = "" then false
    else constantTimeEq (hmacSha256Hex api_key payload) sig

/-! ## Helper lemmas -/

theorem dropWhile_dropWhile (p : Char → Bool) (l : List Char) :
    (l.dropWhile p).dropWhile p = l.dropWhile p := by
  induction l with
  | nil => rfl
  | cons a t ih =>
    by_cases h : p a
    · simp [List.dropWhile_cons, h, ih]
    · simp [List.dropWhile_cons, h]

theorem dropLeadWs_idem (l : List Char) :
    dropLeadWs (dropLeadWs l) = dropLeadWs l :=
  dropWhile_dropWhile isPyWs l

theorem dropTrailWs_idem (l : List Char) :
    dropTrailWs (dropTrailWs l) = dropTrailWs l := by
  simp [dropTrailWs, dropWhile_dropWhile]

/-- A prefix of a list on which `dropWhile` is the identity is itself
fixed by `dropWhile`. -/
theorem dropWhile_eq_self_of_prefix (p : Char → Bool) {y z : List Char}
    (hz : z <+: y) (hy : y.dropWhile p = y) : z.dropWhile p = z := by
  cases z with
  | nil => rfl
  | cons a t =>
    obtain ⟨r, hr⟩ := hz
    have ha : p a = false := by
      by_contra hpa
      have hpa' : p a = true := by revert hpa; cases p a <;> simp
      have : y.dropWhile p = (t ++ r).dropWhile p := by
        rw [← hr, List.cons_append, List.dropWhile_cons_of_pos hpa']
      have hlen : y.length ≤ (t ++ r).length := by
        rw [hy] at this
        rw [this]
        exact (List.dropWhile_sublist p).length_le
      rw [← hr] at hlen
      simp at hlen
    simp [List.dropWhile_cons, ha]

theorem dropTrailWs_prefixOf (l : List Char) : dropTrailWs l <+: l := by
  have h : l.reverse.dropWhile isPyWs <:+ l.reverse :=
    List.dropWhile_suffix isPyWs
  have h2 : (l.reverse.dropWhile isPyWs).reverse <+: l.reverse.reverse :=
    List.reverse_prefix.mpr h
  simpa [dropTrailWs] using h2

theorem pyStrip_idem (l : List Char) : pyStrip (pyStrip l) = pyStrip l := by
  unfold pyStrip
  have hy : (dropLeadWs l).dropWhile isPyWs = dropLeadWs l := dropLeadWs_idem l
  have hz : dropLeadWs (dropTrailWs (dropLeadWs l)) = dropTrailWs (dropLeadWs l) :=
    dropWhile_eq_self_of_prefix isPyWs (dropTrailWs_prefixOf (dropLeadWs l)) hy
  rw [hz, dropTrailWs_idem]

theorem pyStrip_subset (l : List Char) : pyStrip l ⊆ l := by
  intro c hc
  have h1 : pyStrip l ⊆ dropLeadWs l := (dropTrailWs_prefixOf _).subset
  have h2 : dropLeadWs l ⊆ l := (List.dropWhile_sublist _).subset
  exact h2 (h1 hc)

theorem pyStrip_length_le (l : List Char) : (pyStrip l).length ≤ l.length := by
  calc (pyStrip l).length ≤ (dropLeadWs l).length :=
        (dropTrailWs_prefixOf _).sublist.length_le
    _ ≤ l.length := (List.dropWhile_sublist _).length_le

/-- Everything `sanitize_string` emits passes the dangerous-character
filter. -/
theorem sanitize_string_clean (s : List Char) (n : Nat) :
    ∀ c ∈ sanitize_string s n, !isDangerous c := by
  intro c hc
  have := List.take_subset n _ hc
  exact (List.mem_filter.mp this).2

theorem sanitize_string_length_le (s : List Char) (n : Nat) :
    (sanitize_string s n).length ≤ n := by
  simp [sanitize_string]

/-- On a list all of whose characters are clean, one `sanitize_string`
pass only strips whitespace (no character is removed and the bound is
loose whenever the input already fits it). -/
theorem sanitize_string_of_clean {s : List Char}
    (h : ∀ c ∈ s, !isDangerous c) (hlen : s.length ≤ 1000) :
    sanitize_string s 1000 = pyStrip s := by
  unfold sanitize_string
  have hfix : (pyStrip s).filter (fun c => !isDangerous c) = pyStrip s :=
    List.filter_eq_self.mpr (fun c hc => h c (pyStrip_subset s hc))
  rw [hfix]
  exact List.take_of_length_le (le_trans (pyStrip_length_le s) hlen)

/-- The second application of the sanitizer to a string is a pure
whitespace strip: the first pass already removed every dangerous
character and cut to length. -/
theorem sanitize_string_second_pass (s : List Char) :
    sanitize_string (sanitize_string s 1000) 1000 =
      pyStrip (sanitize_string s 1000) :=
  sanitize_string_of_clean (sanitize_string_clean s 1000)
    (sanitize_string_length_le s 1000)

/-! ## Claim theorems -/

/-- C9 counterexample: `sanitize_transaction_metadata` is not idempotent.
On the dict `{"a": "b"}` the first application returns the JSON string
`{"a": "b"}`; re-applying the sanitizer to that output strips the double
quotes (dangerous characters), yielding `{a: b}`. -/
theorem c9_sanitize_metadata_not_idempotent :
    sanitize_transaction_metadata
        (.str (sanitize_transaction_metadata (.dict [(['a'], ['b'])]))) ≠
      sanitize_transaction_metadata (.dict [(['a'], ['b'])]) := by
  decide

/-- C9 amended: the sanitizer is not idempotent — re-applying it to the
JSON output of a dict strips the quotes, and on plain strings removing a
dangerous character can expose boundary whitespace that only the next
application trims (witness `"a ;"`, whose first pass gives `"a "` and
second pass `"a"`).  What does hold on strings is stabilization after two
passes: a third application returns the second output unchanged. -/
theorem c9_sanitize_metadata_stabilizes :
    (∀ s : List Char,
      sanitize_transaction_metadata
          (.str (sanitize_transaction_metadata
            (.str (sanitize_transaction_metadata (.str s))))) =
        sanitize_transaction_metadata
          (.str (sanitize_transaction_metadata (.str s))))
    ∧ sanitize_transaction_metadata
        (.str (sanitize_transaction_metadata (.str ("a ;".toList)))) ≠
      sanitize_transaction_metadata (.str ("a ;".toList)) := by
  constructor
  · intro s
    show sanitize_string (sanitize_string (sanitize_string s 1000) 1000) 1000 =
      sanitize_string (sanitize_string s 1000) 1000
    rw [sanitize_string_second_pass s]
    have hclean : ∀ c ∈ pyStrip (sanitize_string s 1000), !isDangerous c :=
      fun c hc => sanitize_string_clean s 1000 c (pyStrip_subset _ hc)
    have hlen : (pyStrip (sanitize_string s 1000)).length ≤ 1000 :=
      le_trans (pyStrip_length_le _) (sanitize_string_length_le s 1000)
    rw [sanitize_string_of_clean hclean hlen, pyStrip_idem]
  · decide

/-- C1: the status-transition operation has no idempotency guard.  Against
an already-`completed` transaction `tx1` (owner 7, `processed_at = 6`), a
delivery requesting `refunded` does not read the stored status and returns
no `AlreadyProcessed` value.  As shipped, the call returns the generic
failure `False` with the store unchanged — but only because its `UPDATE`
names the nonexistent column `updated_at` and raises; at the statement
level the code was written for, the same call silently overwrites the
terminal status and `processed_at` and reports success. -/
theorem c1_no_terminal_idempotency_guard :
    update_transaction_status
        ⟨[⟨7, 0, 0, true, 0⟩],
         [⟨"tx1", 7, 10, "OxaPay", "", "completed", 5, some 6⟩]⟩
        "tx1" "refunded" 7 =
      (false,
       ⟨[⟨7, 0, 0, true, 0⟩],
        [⟨"tx1", 7, 10, "OxaPay", "", "completed", 5, some 6⟩]⟩)
    ∧ updateTransactionStatusSteps
        ⟨[⟨7, 0, 0, true, 0⟩],
         [⟨"tx1", 7, 10, "OxaPay", "", "completed", 5, some 6⟩]⟩
        "tx1" "refunded" 7 none =
      (true,
       ⟨[⟨7, 0, 0, true, 0⟩],
        [⟨"tx1", 7, 10, "OxaPay", "", "refunded", 5, some 7⟩]⟩) := by
  constructor <;> rfl

/-- C2: delivering `completed` twice.  As shipped, both deliveries fail
(the `UPDATE` names the missing `updated_at` column), so the owner's
`is_vip` never flips at all — not "exactly once".  At the statement level
the code was written for, the first delivery (time 10) completes the
transaction and upgrades the user, but the second delivery (time 20) is
not a no-op: it reports success again, re-runs the VIP update and
overwrites `processed_at` from 10 to 20, contradicting "processed_at
fixed at the value set by the first application". -/
theorem c2_double_completed_delivery_not_idempotent :
    update_transaction_status
        ⟨[⟨7, 0, 0, false, 0⟩],
         [⟨"tx1", 7, 10, "OxaPay", "", "pending", 5, none⟩]⟩
        "tx1" "completed" 10 =
      (false,
       ⟨[⟨7, 0, 0, false, 0⟩],
        [⟨"tx1", 7, 10, "OxaPay", "", "pending", 5, none⟩]⟩)
    ∧ updateTransactionStatusSteps
        ⟨[⟨7, 0, 0, false, 0⟩],
         [⟨"tx1", 7, 10, "OxaPay", "", "pending", 5, none⟩]⟩
        "tx1" "completed" 10 none =
      (true,
       ⟨[⟨7, 0, 0, true, 10⟩],
        [⟨"tx1", 7, 10, "OxaPay", "", "completed", 5, some 10⟩]⟩)
    ∧ updateTransactionStatusSteps
        ⟨[⟨7, 0, 0, true, 10⟩],
         [⟨"tx1", 7, 10, "OxaPay", "", "completed", 5, some 10⟩]⟩
        "tx1" "completed" 20 none =
      (true,
       ⟨[⟨7, 0, 0, true, 20⟩],
        [⟨"tx1", 7, 10, "OxaPay", "", "completed", 5, some 20⟩]⟩)
    ∧ (some 20 : Option Time) ≠ some 10 := by
  refine ⟨rfl, rfl, rfl, by decide⟩

/-- C3: the `pending → completed` transition is not atomic.  As shipped it
never commits at all (the `UPDATE` names the missing `updated_at` column
and every call fails), contradicting the repo's own `verify_system.py`
end-to-end check.  At the statement level the code was written for, the
transaction `UPDATE` and the user `UPDATE` are two separately committed
statements; a failure injected between them (`failAt = some 2`, e.g. a
storage error on the user write) leaves the committed state with `tx1`
`completed` while owner 7's `is_vip` is still `false`. -/
theorem c3_completed_transition_not_atomic :
    update_transaction_status
        ⟨[⟨7, 0, 0, false, 0⟩],
         [⟨"tx1", 7, 10, "OxaPay", "", "pending", 5, none⟩]⟩
        "tx1" "completed" 10 =
      (false,
       ⟨[⟨7, 0, 0, false, 0⟩],
        [⟨"tx1", 7, 10, "OxaPay", "", "pending", 5, none⟩]⟩)
    ∧ updateTransactionStatusSteps
        ⟨[⟨7, 0, 0, false, 0⟩],
         [⟨"tx1", 7, 10, "OxaPay", "", "pending", 5, none⟩]⟩
        "tx1" "completed" 10 (some 2) =
      (false,
       ⟨[⟨7, 0, 0, false, 0⟩],
        [⟨"tx1", 7, 10, "OxaPay", "", "completed", 5, some 10⟩]⟩)
    ∧ ((⟨[⟨7, 0, 0, false, 0⟩],
         [⟨"tx1", 7, 10, "OxaPay", "", "completed", 5, some 10⟩]⟩ : DB).transactions.map
          (fun t => t.status) = ["completed"]
       ∧ (⟨[⟨7, 0, 0, false, 0⟩],
           [⟨"tx1", 7, 10, "OxaPay", "", "completed", 5, some 10⟩]⟩ : DB).users.map
          (fun u => u.is_vip) = [false]) := by
  refine ⟨rfl, rfl, rfl, rfl⟩

/-- C5 counterexample: the bridge queue is `queue.Queue()` with the
default `maxsize = 0`, i.e. unbounded.  A producer enqueueing onto a
queue already holding 100 items is accepted (returns `True`, item
appended) rather than failing closed: there is no capacity at which a
backpressure error fires. -/
theorem c5_queue_unbounded_accepts :
    syncQueueInit.maxsize = 0
    ∧ (send_payment_notification
        ⟨0, List.replicate 100 ⟨"payment_notification", "x", 1, "m", none⟩⟩
        "ord1" 7 "paid" none).1 = true
    ∧ ((send_payment_notification
        ⟨0, List.replicate 100 ⟨"payment_notification", "x", 1, "m", none⟩⟩
        "ord1" 7 "paid" none).2).items.length = 101 := by
  refine ⟨rfl, rfl, ?_⟩
  simp [send_payment_notification, queuePut]

/-- C5 amended: `send_payment_notification` never blocks and never
rejects — `_sync_queue` is unbounded, so the put always succeeds
immediately, the record is appended and the call returns `True` whatever
the queue already holds.  There is no capacity bound and no backpressure
error. -/
theorem c5_enqueue_always_succeeds :
    ∀ (items : List NotificationItem) (oid : String) (uid : Int)
      (msg : String) (aid : Option Int),
      send_payment_notification ⟨0, items⟩ oid uid msg aid =
        (true, ⟨0, items ++ [⟨"payment_notification", oid, uid, msg, aid⟩]⟩) := by
  intro items oid uid msg aid
  simp [send_payment_notification, queuePut]

/-- The retry loop issues at most `fuel` requests. -/
theorem makeRequestGo_requests_le (oracle : Nat → HttpOutcome) (mr : Nat) :
    ∀ (fuel attempt : Nat),
      (makeRequestGo oracle mr attempt fuel).requests ≤ fuel := by
  intro fuel
  induction fuel with
  | zero => intro a; simp [makeRequestGo]
  | succ n ih =>
    intro a
    simp only [makeRequestGo]
    cases h : oracle a with
    | response s jOk body =>
      by_cases h4 : 400 ≤ s
      · simp only [h4, if_true]
        by_cases hl : a = mr
        · simp [hl]
        · simpa [hl] using Nat.succ_le_succ (ih (a + 1))
      · by_cases hj : jOk <;> simp [h4, hj]
    | timeout =>
      by_cases hl : a = mr
      · simp [hl]
      · simpa [hl] using Nat.succ_le_succ (ih (a + 1))
    | connError =>
      by_cases hl : a = mr
      · simp [hl]
      · simpa [hl] using Nat.succ_le_succ (ih (a + 1))
    | reqError =>
      by_cases hl : a = mr
      · simp [hl]
      · simpa [hl] using Nat.succ_le_succ (ih (a + 1))
    | otherError =>
      by_cases hl : a = mr
      · simp [hl]
      · simpa [hl] using Nat.succ_le_succ (ih (a + 1))

/-- C4 counterexample: a successfully received non-2xx response is NOT
surfaced without retry.  With the server answering 500 (valid JSON body)
on every attempt, `_make_request` issues 4 HTTP requests — the initial
one plus 3 retries with backoff sleeps 2, 4, 8 — because
`raise_for_status()`'s `HTTPError` is a `RequestException` and lands in
the generic retry handler; the final error is swallowed into `None`. -/
theorem c4_non2xx_is_retried :
    makeRequestTrace 3 (fun _ => .response 500 true 0) = ⟨none, 4, [2, 4, 8]⟩
    ∧ (makeRequestTrace 3 (fun _ => .response 500 true 0)).requests ≠ 1 := by
  constructor
  · rfl
  · decide

/-- C4 amended: `_make_request` performs at most 3 retries (4 attempts)
with exponential backoff `2^attempt` seconds, and it retries uniformly on
timeout, connection failure, any other request error AND successfully
received non-2xx responses alike, returning `None` (not raising) once
attempts are exhausted; a 2xx response with a valid JSON body is returned
immediately with no retry and no sleep. -/
theorem c4_retry_behavior :
    (∀ oracle : Nat → HttpOutcome,
      (makeRequestTrace 3 oracle).requests ≤ 4)
    ∧ (∀ f : Nat → Nat,
        makeRequestTrace 3 (fun i => .response (400 + f i) true 0) =
          ⟨none, 4, [2, 4, 8]⟩)
    ∧ makeRequestTrace 3 (fun _ => .timeout) = ⟨none, 4, [2, 4, 8]⟩
    ∧ makeRequestTrace 3 (fun _ => .connError) = ⟨none, 4, [2, 4, 8]⟩
    ∧ makeRequestTrace 3 (fun _ => .reqError) = ⟨none, 4, [2, 4, 8]⟩
    ∧ makeRequestTrace 3 (fun _ => .otherError) = ⟨none, 4, [2, 4, 8]⟩
    ∧ (∀ (o : Nat → HttpOutcome) (b : Nat),
        makeRequestTrace 3 (fun i => if i = 0 then .response 200 true b else o i) =
          ⟨some b, 1, []⟩) := by
  refine ⟨fun oracle => makeRequestGo_requests_le oracle 3 4 0, ?_, rfl, rfl, rfl, rfl, ?_⟩
  · intro f
    simp [makeRequestTrace, makeRequestGo, Nat.le_add_right]
  · intro o b
    simp [makeRequestTrace, makeRequestGo]

/-- Rounding an integer-valued amount to 2 digits is the identity. -/
theorem pyRound2_intCast (n : ℤ) : pyRound2 ((n : ℚ)) = (n : ℚ) := by
  have h : (100 : ℚ) * (n : ℚ) = ((100 * n : ℤ) : ℚ) := by push_cast; ring
  simp only [pyRound2, roundHalfEven, h, Int.floor_intCast, sub_self]
  norm_num

/-- Rounding a natural-valued amount to 2 digits is the identity. -/
theorem pyRound2_natCast (n : ℕ) : pyRound2 ((n : ℚ)) = (n : ℚ) := by
  simpa using pyRound2_intCast n

/-- `create_transaction` with failing validation is a no-op returning
`False`. -/
theorem create_transaction_validation_failed {db : DB} {tid : String}
    {uid : Int} {a : AmountInput} {m : String} {md : Metadata} {now : Time}
    (hv : validate_transaction_input tid uid a m md = none) :
    create_transaction db tid uid a m md now = (false, db) := by
  unfold create_transaction
  rw [hv]

/-- `create_transaction` with passing validation reduces to the
duplicate-key check followed by the row insert. -/
theorem create_transaction_validated {db : DB} {tid : String} {uid : Int}
    {a : AmountInput} {m : String} {md : Metadata} {now : Time}
    {v : ValidatedTx}
    (hv : validate_transaction_input tid uid a m md = some v) :
    create_transaction db tid uid a m md now =
      if db.transactions.any (fun t => t.tx_id = v.tx_id) then (false, db)
      else
        (true,
         { db with
           transactions := db.transactions ++
             [⟨v.tx_id, v.user_id, v.amount, v.method, String.mk v.metadata,
               "pending", now, none⟩] }) := by
  unfold create_transaction
  rw [hv]

/-- Numeric amounts out of `(0, 10000]` are rejected by
`validate_amount`. -/
theorem validate_amount_num_rejects {q : ℚ} (h : q ≤ 0 ∨ 10000 < q) :
    validate_amount (.num q) = none := by
  rcases h with h | h
  · simp [validate_amount, h]
  · have h0 : ¬ q ≤ 0 := by linarith
    simp [validate_amount, h0, h]

/-- An accepted numeric amount lies in `(0, 10000]` and comes back rounded
to 2 decimal digits. -/
theorem validate_amount_num_accepts {q r : ℚ}
    (h : validate_amount (.num q) = some r) :
    0 < q ∧ q ≤ 10000 ∧ r = pyRound2 q := by
  by_cases h0 : q ≤ 0
  · simp [validate_amount, h0] at h
  · by_cases h1 : 10000 < q
    · simp [validate_amount, h0, h1] at h
    · simp only [validate_amount, h0, if_false, h1, Option.some.injEq] at h
      exact ⟨lt_of_not_le h0, le_of_not_lt h1, h.symm⟩

/-- An amount rejection propagates: `validate_transaction_input` fails
whatever the other fields are. -/
theorem validate_transaction_input_amount_none {a : AmountInput}
    (h : validate_amount a = none) (t : String) (u : Int) (m : String)
    (md : Metadata) :
    validate_transaction_input t u a m md = none := by
  unfold validate_transaction_input
  by_cases ht : t = ""
  · simp [ht]
  · simp only [ht, if_false]
    rcases hvo : validate_order_id t with _ | tid
    · rfl
    · rcases hvt : validate_telegram_id u with _ | uid
      · rfl
      · simp [h]

/-- A successful `validate_transaction_input` carries exactly the
sanitized amount `validate_amount` produced. -/
theorem validate_transaction_input_amount {t : String} {u : Int}
    {a : AmountInput} {m : String} {md : Metadata} {v : ValidatedTx}
    (h : validate_transaction_input t u a m md = some v) :
    validate_amount a = some v.amount := by
  unfold validate_transaction_input at h
  by_cases ht : t = ""
  · simp [ht] at h
  · simp only [ht, if_false] at h
    rcases hvo : validate_order_id t with _ | tid <;> rw [hvo] at h
    · simp at h
    · rcases hvt : validate_telegram_id u with _ | uid <;> rw [hvt] at h
      · simp at h
      · rcases hva : validate_amount a with _ | amt <;> rw [hva] at h
        · simp at h
        · by_cases hm : m = ""
          · simp [hm] at h
          · simp only [hm, if_false] at h
            rcases hvm : validate_payment_method m with _ | mm <;> rw [hvm] at h
            · simp at h
            · simp only [Option.some.injEq] at h
              rw [← h]

/-- C6 counterexample: validation does not reject every amount whose
represented value is `≤ 0`.  The string `"-1"` denotes the negative
decimal −1, yet the cleaning step `re.sub(r'[^\d.]', '', ...)` deletes the
minus sign, so `validate_amount` accepts it as `1` — and
`create_transaction` happily writes a `pending` row with amount 1 for
it. -/
theorem c6_negative_string_amount_accepted :
    decimalValue "-1" = some (-1)
    ∧ ((-1 : ℚ) ≤ 0)
    ∧ validate_amount (.str "-1") = some 1
    ∧ (create_transaction ⟨[⟨7, 0, 0, false, 0⟩], []⟩ "order99" 7
        (.str "-1") "OxaPay" (.str []) 5).1 = true
    ∧ ((create_transaction ⟨[⟨7, 0, 0, false, 0⟩], []⟩ "order99" 7
        (.str "-1") "OxaPay" (.str []) 5).2).transactions.map
        (fun t => t.amount) = [1] := by
  have hclean : cleanAmountChars "-1" = ['1'] := by decide
  have hfloat : floatOfCleaned ['1'] = some 1 := by
    have e1 : List.takeWhile (fun c : Char => (decide (c.toNat ≠ 46))) ['1'] =
        ['1'] := by rfl
    have e2 : List.dropWhile (fun c : Char => (decide (c.toNat ≠ 46))) ['1'] =
        [] := by rfl
    simp only [floatOfCleaned, e1, e2]
    norm_num [show digitsVal ['1'] = 1 from rfl, show digitsVal [] = 0 from rfl]
  have hround : pyRound2 1 = 1 := by simpa using pyRound2_natCast 1
  have hva : validate_amount (.str "-1") = some 1 := by
    have efl : (List.filter (fun c : Char => (decide (c.toNat = 46))) ['1']).length =
        0 := by rfl
    simp only [validate_amount, hclean, efl]
    norm_num [hfloat, hround]
  have hdv : decimalValue "-1" = some (-1) := by
    have hb : isDecimalDigits ['1'] = true := by decide
    show (if isDecimalDigits ['1'] then
        (floatOfCleaned ['1']).map (fun q => -q) else none) = some (-1)
    rw [if_pos hb, hfloat]
    norm_num
  have hvti : validate_transaction_input "order99" 7 (.str "-1") "OxaPay"
      (.str []) = some ⟨"order99", 7, 1, "OxaPay", []⟩ := by
    have hord : validate_order_id "order99" = some "order99" := by decide
    have htel : validate_telegram_id 7 = some 7 := by decide
    have hmeth : validate_payment_method "OxaPay" = some "OxaPay" := by decide
    have hmeta : sanitize_transaction_metadata (.str []) = [] := by decide
    simp [validate_transaction_input, hord, htel, hva, hmeth, hmeta]
  have hct : create_transaction ⟨[⟨7, 0, 0, false, 0⟩], []⟩ "order99" 7
      (.str "-1") "OxaPay" (.str []) 5 =
      (true,
       ⟨[⟨7, 0, 0, false, 0⟩],
        [⟨"order99", 7, 1, "OxaPay", "", "pending", 5, none⟩]⟩) := by
    rw [create_transaction_validated hvti]
    rfl
  refine ⟨hdv, by norm_num, hva, ?_, ?_⟩
  · rw [hct]
  · rw [hct]
    rfl

/-- C6 amended: for every NUMERIC amount, validation rejects values `≤ 0`
or `> 10000` and `create_transaction` then writes nothing; every accepted
numeric amount is stored rounded (half-even) to 2 fractional digits in a
`pending` row.  For string amounts the bounds apply only to the value
left after stripping every character that is not a digit or a dot, so
sign-carrying strings such as `"-1"` slip through as their absolute
value. -/
theorem c6_numeric_amount_bounds_and_rounding :
    ∀ q : ℚ,
      ((q ≤ 0 ∨ 10000 < q) →
        validate_amount (.num q) = none
        ∧ ∀ (db : DB) (tid : String) (uid : Int) (m : String) (md : Metadata)
            (now : Time),
            create_transaction db tid uid (.num q) m md now = (false, db))
      ∧ (∀ r : ℚ, validate_amount (.num q) = some r →
          0 < q ∧ q ≤ 10000 ∧ r = pyRound2 q)
      ∧ (∀ (db : DB) (tid : String) (uid : Int) (m : String) (md : Metadata)
          (now : Time) (db' : DB),
          create_transaction db tid uid (.num q) m md now = (true, db') →
          ∃ t ∈ db'.transactions, t.amount = pyRound2 q ∧ t.status = "pending") := by
  intro q
  refine ⟨fun h => ⟨validate_amount_num_rejects h, ?_⟩,
    fun r hr => validate_amount_num_accepts hr, ?_⟩
  · intro db tid uid m md now
    exact create_transaction_validation_failed
      (validate_transaction_input_amount_none (validate_amount_num_rejects h)
        tid uid m md)
  · intro db tid uid m md now db' h
    rcases hv : validate_transaction_input tid uid (.num q) m md with _ | v
    · rw [create_transaction_validation_failed hv] at h
      simp at h
    · rw [create_transaction_validated hv] at h
      by_cases hd : (db.transactions.any fun t => t.tx_id = v.tx_id) = true
      · rw [if_pos hd] at h
        simp at h
      · rw [if_neg hd] at h
        have hdb :
            ({ db with
               transactions := db.transactions ++
                 [⟨v.tx_id, v.user_id, v.amount, v.method, String.mk v.metadata,
                   "pending", now, none⟩] } : DB) = db' :=
          congrArg Prod.snd h
        have hamt : v.amount = pyRound2 q :=
          (validate_amount_num_accepts (validate_transaction_input_amount hv)).2.2
        refine ⟨⟨v.tx_id, v.user_id, v.amount, v.method, String.mk v.metadata,
          "pending", now, none⟩, ?_, hamt, rfl⟩
        rw [← hdb]
        simp

/-- C6 witness: the amended statement at the concrete rejected amount −5
(nothing written) and the accepted amount 3 (in bounds, stored as its own
2-digit rounding). -/
theorem c6_numeric_amount_bounds_witness :
    (validate_amount (.num (-5)) = none
      ∧ create_transaction ⟨[⟨7, 0, 0, false, 0⟩], []⟩ "order99" 7
          (.num (-5)) "OxaPay" (.str []) 5 =
        (false, ⟨[⟨7, 0, 0, false, 0⟩], []⟩))
    ∧ (0 < (3 : ℚ) ∧ (3 : ℚ) ≤ 10000 ∧ (3 : ℚ) = pyRound2 3) := by
  have hv3 : validate_amount (.num 3) = some 3 := by
    have h3 : pyRound2 3 = 3 := by simpa using pyRound2_natCast 3
    norm_num [validate_amount, h3]
  have h1 := (c6_numeric_amount_bounds_and_rounding (-5)).1 (Or.inl (by norm_num))
  have h2 := (c6_numeric_amount_bounds_and_rounding 3).2.1 3 hv3
  exact ⟨⟨h1.1, h1.2 _ "order99" 7 "OxaPay" (.str []) 5⟩, h2⟩

/-- Every element of a joined list occurs verbatim inside the join. -/
theorem joinSep_mem_split (sep : String) :
    ∀ (l : List String), ∀ x ∈ l, ∃ a b, joinSep sep l = a ++ x ++ b := by
  intro l
  induction l with
  | nil => intro x hx; cases hx
  | cons h t ih =>
    intro x hx
    rcases List.mem_cons.mp hx with rfl | hx
    · cases t with
      | nil => exact ⟨"", "", by simp [joinSep]⟩
      | cons y ys =>
        refine ⟨"", sep ++ joinSep sep (y :: ys), ?_⟩
        simp [joinSep, String.append_assoc]
    · cases t with
      | nil => cases hx
      | cons y ys =>
        obtain ⟨a, b, hab⟩ := ih x hx
        refine ⟨h ++ sep ++ a, b, ?_⟩
        simp [joinSep, hab, String.append_assoc]

/-- A parameter pair of `urlencode`'s input surfaces as the substring
`key=value` (quote-plus encoded) of the output. -/
theorem urlencode_mem_split {params : List (String × String)}
    {kv : String × String} (h : kv ∈ params) :
    ∃ a b, urlencode params = a ++ (quotePlus kv.1 ++ "=" ++ quotePlus kv.2) ++ b := by
  apply joinSep_mem_split
  exact List.mem_map_of_mem (fun p => quotePlus p.1 ++ "=" ++ quotePlus p.2) h

/-- C10 counterexample: `"transak"` — a case variant of the supported
method `"Transak"` — is NOT accepted by `validate_payment_method`: the
validator's case-insensitive list (`OxaPay, Cryptomus, NOWPayments,
Stars`) does not contain `Transak` at all, in any casing, even though
`generate_payment_link` supports exactly-spelled `"Transak"` (here with a
configured wallet it returns a link with zero network calls). -/
theorem c10_transak_rejected_by_validator :
    validate_payment_method "transak" = none
    ∧ validate_payment_method "Transak" = none
    ∧ (generate_payment_link
        ⟨none, none, none, none, none, some "TXw9WalletAddr", "https://t.me/YourBotName", false⟩
        (fun _ => none) "Transak" 10 "ord1" 5 42).1.isSome = true
    ∧ (generate_payment_link
        ⟨none, none, none, none, none, some "TXw9WalletAddr", "https://t.me/YourBotName", false⟩
        (fun _ => none) "Transak" 10 "ord1" 5 42).2 = 0 := by
  have hguard : ¬(("Transak" : String) = "" ∨ (10 : ℚ) = 0 ∨ ("ord1" : String) = ""
      ∨ (5 : Int) = 0) := by
    push_neg
    refine ⟨by decide, by norm_num, by decide, by decide⟩
  have ha : ¬((10 : ℚ) ≤ 0) := by norm_num
  have hgpl : generate_payment_link
      ⟨none, none, none, none, none, some "TXw9WalletAddr", "https://t.me/YourBotName", false⟩
      (fun _ => none) "Transak" 10 "ord1" 5 42 =
      (some (.transak
        (transakPayUrl
          ⟨none, none, none, none, none, some "TXw9WalletAddr", "https://t.me/YourBotName", false⟩
          "TXw9WalletAddr" 10)
        ("transak_" ++ toString (42 : Time)) 10 "USD"), 0) := by
    simp [generate_payment_link, hguard, ha]
  refine ⟨by decide, by decide, ?_, ?_⟩
  · rw [hgpl]
    rfl
  · rw [hgpl]

/-- C10 amended: `validate_payment_method` matches case-insensitively
against its own list (`OxaPay, Cryptomus, NOWPayments, Stars` — not
`Transak`), while `generate_payment_link` matches the method
case-sensitively against `Transak, OxaPay, Cryptomus, NOWPayments,
Stripe`.  Hence a case variant of a shared method name such as
`"oxapay"`, `"cryptomus"` or `"nowpayments"` passes validation (returning
the canonical spelling) yet makes `generate_payment_link` return `None`
with no network call; `"transak"` fails validation as well. -/
theorem c10_validator_gpl_case_mismatch :
    validate_payment_method "oxapay" = some "OxaPay"
    ∧ validate_payment_method "cryptomus" = some "Cryptomus"
    ∧ validate_payment_method "nowpayments" = some "NOWPayments"
    ∧ validate_payment_method "transak" = none
    ∧ (∀ (cfg : PayConfig) (net : String → Option PayResp) (now : Time),
        generate_payment_link cfg net "oxapay" 10 "ord1" 5 now = (none, 0))
    ∧ (∀ (cfg : PayConfig) (net : String → Option PayResp) (now : Time),
        generate_payment_link cfg net "cryptomus" 10 "ord1" 5 now = (none, 0))
    ∧ (∀ (cfg : PayConfig) (net : String → Option PayResp) (now : Time),
        generate_payment_link cfg net "nowpayments" 10 "ord1" 5 now = (none, 0))
    ∧ validMethods = ["OxaPay", "Cryptomus", "NOWPayments", "Stars"]
    ∧ gplMethods = ["OxaPay", "Cryptomus", "NOWPayments", "Stripe"] := by
  have ha : ¬((10 : ℚ) ≤ 0) := by norm_num
  have h10 : ¬((10 : ℚ) = 0) := by norm_num
  have hunsupported : ∀ (m : String), m ≠ "" → m ≠ "Transak" →
      m ∉ gplMethods →
      ∀ (cfg : PayConfig) (net : String → Option PayResp) (now : Time),
        generate_payment_link cfg net m 10 "ord1" 5 now = (none, 0) := by
    intro m hm hmt hmc cfg net now
    have hguard : ¬(m = "" ∨ (10 : ℚ) = 0 ∨ ("ord1" : String) = ""
        ∨ (5 : Int) = 0) := by
      push_neg
      exact ⟨hm, h10, by decide, by decide⟩
    simp [generate_payment_link, hguard, ha, hmt, hmc]
  refine ⟨by decide, by decide, by decide, by decide,
    hunsupported "oxapay" (by decide) (by decide) (by decide),
    hunsupported "cryptomus" (by decide) (by decide) (by decide),
    hunsupported "nowpayments" (by decide) (by decide) (by decide), rfl, rfl⟩

/-- Folding `&&` over a list from any accumulator is the accumulator
conjoined with `all` — in particular the fold inspects every element,
never short-circuiting structurally. -/
theorem foldl_and_eq {α : Type} (f : α → Bool) :
    ∀ (l : List α) (acc : Bool),
      l.foldl (fun acc p => acc && f p) acc = (acc && l.all f) := by
  intro l
  induction l with
  | nil => intro acc; simp
  | cons h t ih =>
    intro acc
    simp only [List.foldl_cons, List.all_cons, ih, Bool.and_assoc]

/-- Two lists agree exactly when they have equal length and agree
pairwise along their zip. -/
theorem list_eq_iff_zip_all :
    ∀ (l₁ l₂ : List Char),
      (l₁.length = l₂.length ∧ (l₁.zip l₂).all (fun p => p.1 == p.2) = true) ↔
        l₁ = l₂ := by
  intro l₁
  induction l₁ with
  | nil =>
    intro l₂
    cases l₂ with
    | nil => simp
    | cons b t => simp
  | cons a s ih =>
    intro l₂
    cases l₂ with
    | nil => simp
    | cons b t =>
      simp only [List.length_cons, List.zip_cons_cons, List.all_cons,
        Bool.and_eq_true, beq_iff_eq, List.cons.injEq]
      constructor
      · rintro ⟨hlen, hab, hall⟩
        exact ⟨hab, (ih t).mp ⟨Nat.succ_injective hlen, hall⟩⟩
      · rintro ⟨rfl, rfl⟩
        exact ⟨rfl, rfl, ((ih s).mpr rfl).2⟩

/-- `compare_digest`, as modeled, decides exactly string equality. -/
theorem constantTimeEq_iff (a b : String) :
    constantTimeEq a b = true ↔ a = b := by
  unfold constantTimeEq
  rw [foldl_and_eq]
  simp only [Bool.true_and, Bool.and_eq_true, beq_iff_eq]
  constructor
  · rintro ⟨hlen, hall⟩
    exact String.ext ((list_eq_iff_zip_all a.toList b.toList).mp ⟨hlen, hall⟩)
  · rintro rfl
    refine ⟨rfl, ((list_eq_iff_zip_all a.toList a.toList).mpr rfl).2⟩

/-- C8: `verify_oxapay` is a pure predicate that fails closed on a missing
signature or missing key and otherwise accepts exactly the hex HMAC of
the payload under the key (`hmacSha256Hex` kept abstract), compared
without short-circuit; consequently a signature computed under a
different secret whose digest differs is rejected. -/
theorem c8_verify_oxapay_exact (hmacSha256Hex : String → String → String)
    (payload : String) (api_key : String) (sig : String)
    (hk : api_key ≠ "") :
    verify_oxapay hmacSha256Hex payload none api_key = false
    ∧ verify_oxapay hmacSha256Hex payload (some "") api_key = false
    ∧ (∀ s, verify_oxapay hmacSha256Hex payload (some s) "" = false)
    ∧ (verify_oxapay hmacSha256Hex payload (some sig) api_key = true ↔
        (sig ≠ "" ∧ hmacSha256Hex api_key payload = sig))
    ∧ (∀ k', hmacSha256Hex api_key payload ≠ hmacSha256Hex k' payload →
        verify_oxapay hmacSha256Hex payload
          (some (hmacSha256Hex k' payload)) api_key = false) := by
  have hmain : ∀ s : String,
      verify_oxapay hmacSha256Hex payload (some s) api_key = true ↔
        (s ≠ "" ∧ hmacSha256Hex api_key payload = s) := by
    intro s
    by_cases hs : s = ""
    · simp [verify_oxapay, hs]
    · simp only [verify_oxapay]
      rw [if_neg (by simp [hs, hk])]
      rw [constantTimeEq_iff]
      simp [hs]
  refine ⟨rfl, by simp [verify_oxapay], fun s => by simp [verify_oxapay],
    hmain sig, fun k' hne => ?_⟩
  by_cases he : hmacSha256Hex k' payload = ""
  · simp [verify_oxapay, he]
  · rw [Bool.eq_false_iff]
    intro hcontra
    exact hne ((hmain (hmacSha256Hex k' payload)).mp hcontra).2

/-- C7: with the receiving wallet configured, `generate_payment_link` for
`"Transak"` synthesizes the link locally — zero network interactions, and
the result is the same whatever the network would answer — and the
`pay_url` embeds both the configured wallet address (as the
`walletAddress` parameter) and `disableWalletAddressForm=true`; with the
wallet unset it returns `None` instead of a link. -/
theorem c7_transak_wallet_link (cfg : PayConfig)
    (net : String → Option PayResp) (amount : ℚ) (oid : String) (uid : Int)
    (now : Time) (w : String) (hw : cfg.usdtWallet = some w)
    (ha : 0 < amount) (ho : oid ≠ "") (hu : uid ≠ 0) :
    generate_payment_link cfg net "Transak" amount oid uid now =
      (some (.transak (transakPayUrl cfg w amount)
        ("transak_" ++ toString now) amount "USD"), 0)
    ∧ (∀ net' : String → Option PayResp,
        generate_payment_link cfg net' "Transak" amount oid uid now =
          generate_payment_link cfg net "Transak" amount oid uid now)
    ∧ (∃ a b, transakPayUrl cfg w amount =
        a ++ ("walletAddress=" ++ quotePlus w) ++ b)
    ∧ (∃ a b, transakPayUrl cfg w amount =
        a ++ "disableWalletAddressForm=true" ++ b)
    ∧ (∀ cfg' : PayConfig, cfg'.usdtWallet = none →
        generate_payment_link cfg' net "Transak" amount oid uid now =
          (none, 0)) := by
  have hale : ¬(amount ≤ 0) := not_le.mpr ha
  have hmain : ∀ net₀ : String → Option PayResp,
      generate_payment_link cfg net₀ "Transak" amount oid uid now =
        (some (.transak (transakPayUrl cfg w amount)
          ("transak_" ++ toString now) amount "USD"), 0) := by
    intro net₀
    simp [generate_payment_link, hale, hw, ne_of_gt ha, ho, hu]
  refine ⟨hmain net, fun net' => by rw [hmain net', hmain net], ?_, ?_, ?_⟩
  · have hmem : ("walletAddress", w) ∈
        transakParams cfg w (pyFloatStr amount) "USD" := by
      simp [transakParams]
    obtain ⟨a, b, hab⟩ := urlencode_mem_split hmem
    have hq : quotePlus "walletAddress" ++ "=" = "walletAddress=" := by decide
    rw [hq] at hab
    refine ⟨"https://global.transak.com?" ++ a, b, ?_⟩
    show "https://global.transak.com?" ++
      urlencode (transakParams cfg w (pyFloatStr amount) "USD") = _
    rw [hab]
    simp [String.append_assoc]
  · have hmem : ("disableWalletAddressForm", "true") ∈
        transakParams cfg w (pyFloatStr amount) "USD" := by
      simp [transakParams]
    obtain ⟨a, b, hab⟩ := urlencode_mem_split hmem
    have hq : quotePlus "disableWalletAddressForm" ++ "=" ++ quotePlus "true" =
        "disableWalletAddressForm=true" := by decide
    rw [hq] at hab
    refine ⟨"https://global.transak.com?" ++ a, b, ?_⟩
    show "https://global.transak.com?" ++
      urlencode (transakParams cfg w (pyFloatStr amount) "USD") = _
    rw [hab]
    simp [String.append_assoc]
  · intro cfg' hnone
    simp [generate_payment_link, hale, hnone, ne_of_gt ha, ho, hu]

/-- C7 witness: the Transak branch at a concrete configuration (wallet
`TQWalletBase58Addr`, amount 10, order `ord1`, user 5, time 42). -/
theorem c7_transak_wallet_link_witness :
    generate_payment_link
        ⟨none, none, none, none, none, some "TQWalletBase58Addr",
         "https://t.me/YourBotName", false⟩
        (fun _ => none) "Transak" 10 "ord1" 5 42 =
      (some (.transak
        (transakPayUrl
          ⟨none, none, none, none, none, some "TQWalletBase58Addr",
           "https://t.me/YourBotName", false⟩ "TQWalletBase58Addr" 10)
        ("transak_" ++ toString (42 : Time)) 10 "USD"), 0)
    ∧ (∃ a b, transakPayUrl
        ⟨none, none, none, none, none, some "TQWalletBase58Addr",
         "https://t.me/YourBotName", false⟩ "TQWalletBase58Addr" 10 =
        a ++ ("walletAddress=" ++ quotePlus "TQWalletBase58Addr") ++ b)
    ∧ (∃ a b, transakPayUrl
        ⟨none, none, none, none, none, some "TQWalletBase58Addr",
         "https://t.me/YourBotName", false⟩ "TQWalletBase58Addr" 10 =
        a ++ "disableWalletAddressForm=true" ++ b) := by
  have h := c7_transak_wallet_link
    ⟨none, none, none, none, none, some "TQWalletBase58Addr",
     "https://t.me/YourBotName", false⟩
    (fun _ => none) 10 "ord1" 5 42 "TQWalletBase58Addr" rfl
    (by norm_num) (by decide) (by decide)
  exact ⟨h.1, h.2.2.1, h.2.2.2.1⟩

/-- C8 witness: the verifier at a concrete abstract HMAC
(`fun k p => k ++ "|" ++ p`): the digest under the right key is accepted,
a digest under the wrong key is rejected. -/
theorem c8_verify_oxapay_witness :
    ("secret" : String) ≠ ""
    ∧ verify_oxapay (fun k p => k ++ "|" ++ p) "payload"
        (some "secret|payload") "secret" = true
    ∧ verify_oxapay (fun k p => k ++ "|" ++ p) "payload"
        (some "wrong|payload") "secret" = false := by
  have h := c8_verify_oxapay_exact (fun k p => k ++ "|" ++ p) "payload"
    "secret" "secret|payload" (by decide)
  refine ⟨by decide, ?_, ?_⟩
  · exact h.2.2.2.1.mpr ⟨by decide, by decide⟩
  · exact h.2.2.2.2 "wrong" (by decide)

end VStrike
